import Mathlib

/-!
Shallow embedding of `src/widget/cosmic_widget.rs` (ryanabx/libcosmic).

The file defines a `Layer` enum, a `CosmicWidget` trait extending the host
toolkit's `Widget` trait with layer get/set and a derived `child_layer`, a
`CosmicElement` box, a message-remapping wrapper `CosmicMap` and a debug
decorator `CosmicExplain`.

Modelling choices:
- a trait object is a record of methods over an explicit widget-state type
  `σ`; methods taking `&mut self` return the updated state;
- the host toolkit's opaque pass-through types (events, trees, lengths,
  tags, limits, points, rectangles, mouse interactions) are modelled as
  `Nat` identifiers, since this layer only carries them around;
- the renderer is modelled by the list of draw commands it receives;
- an `Operation` object is modelled by the trace of calls a widget makes
  on it (`MapOperation` forwards leaf calls verbatim and re-wraps
  container continuations, so the trace reaching the caller is unchanged);
- the host toolkit's `Shell` and overlay element are modelled from their
  documented behaviour (message buffer with order-preserving `merge`;
  overlay with message-translating `map`).
-/

/-- Opaque host-toolkit event, carried through unchanged. -/
abbrev Event := Nat

/-- Opaque host-toolkit widget state tree (`widget::Tree`). -/
abbrev WTree := Nat

/-- Opaque host-toolkit length (`iced::Length`). -/
abbrev Length := Nat

/-- Opaque host-toolkit tree tag (`tree::Tag`). -/
abbrev Tag := Nat

/-- Opaque host-toolkit tree state blob (`tree::State`). -/
abbrev TState := Nat

/-- Opaque host-toolkit layout limits (`layout::Limits`). -/
abbrev Limits := Nat

/-- Opaque cursor position (`iced::Point`). -/
abbrev Point := Nat

/-- Opaque rectangle (`iced::Rectangle`), used for viewports and bounds. -/
abbrev Rect := Nat

/-- Opaque widget id used by operations (`widget::Id`). -/
abbrev OpId := Nat

/-- Opaque mouse cursor shape (`mouse::Interaction`). -/
abbrev MouseInteraction := Nat

/-- Event status returned by `on_event` (`iced::event::Status`). -/
inductive Status : Type where
  | Ignored : Status
  | Captured : Status
deriving DecidableEq, Repr

/-- Color with numeric components; the only color constants this code uses
(`Color::TRANSPARENT`, border colors) are exactly representable, so the
components are modelled as integers. -/
structure Color : Type where
  r : Int
  g : Int
  b : Int
  a : Int
deriving DecidableEq, Repr

/-- the constant `Color::TRANSPARENT` of the host toolkit: all components
zero, in particular zero opacity. -/
def Color.TRANSPARENT : Color := ⟨0, 0, 0, 0⟩

/-- `Layer` from the source: `Background`, `Primary`, `Secondary`, with
`#[default]` on `Background` and derived `PartialOrd`/`Ord` (declaration
order). -/
inductive Layer : Type where
  | Background : Layer
  | Primary : Layer
  | Secondary : Layer
deriving DecidableEq, Repr, Fintype

/-- the `#[default]` attribute of the source puts the default on
`Background`. -/
def Layer.default : Layer := Layer.Background

instance : Inhabited Layer := ⟨Layer.default⟩

/-- discriminant order of the Rust enum, which the derived `Ord` uses. -/
def Layer.toNat : Layer → Nat
  | Layer.Background => 0
  | Layer.Primary => 1
  | Layer.Secondary => 2

instance : LE Layer := ⟨fun a b => a.toNat ≤ b.toNat⟩

instance : LT Layer := ⟨fun a b => a.toNat < b.toNat⟩

instance (a b : Layer) : Decidable (a ≤ b) :=
  inferInstanceAs (Decidable (a.toNat ≤ b.toNat))

instance (a b : Layer) : Decidable (a < b) :=
  inferInstanceAs (Decidable (a.toNat < b.toNat))

mutual

/-- a node of the computed layout geometry tree (`layout::Node` viewed
through `Layout`): a bounding rectangle plus child layouts. -/
inductive LayoutNode : Type where
  | mk (bounds : Rect) (children : LayoutForest)

/-- the children iterator of a layout node, as a list. -/
inductive LayoutForest : Type where
  | nil : LayoutForest
  | cons (head : LayoutNode) (tail : LayoutForest) : LayoutForest

end

mutual

/-- number of nodes of a layout tree. -/
def LayoutNode.count : LayoutNode → Nat
  | LayoutNode.mk _ cs => 1 + LayoutForest.count cs

/-- total number of nodes of a forest of layout trees. -/
def LayoutForest.count : LayoutForest → Nat
  | LayoutForest.nil => 0
  | LayoutForest.cons l ls => LayoutNode.count l + LayoutForest.count ls

end

/-- a single call a widget makes on the caller's `Operation` object during
`operate`; `container` carries the calls made on the children continuation. -/
inductive OpCall : Type where
  | focusable (id : Option OpId) : OpCall
  | scrollable (id : Option OpId) : OpCall
  | text_input (id : Option OpId) : OpCall
  | container (id : Option OpId) (children : List OpCall) : OpCall

/-- a command issued to the renderer during `draw`: either the
`fill_quad` call the explain pass uses, or an arbitrary primitive a
wrapped widget may issue. -/
inductive DrawCmd : Type where
  | fillQuad (bounds : Rect) (borderColor : Color) (borderWidth : Int)
      (borderRadius : Int) (fill : Color) : DrawCmd
  | prim (n : Nat) : DrawCmd
deriving DecidableEq, Repr

/-- Modelled from the host toolkit (`iced_native::Shell`): the
caller-supplied message buffer a widget's event handler emits into. -/
structure Shell (A : Type) : Type where
  messages : List A

/-- Modelled from the host toolkit: `Shell::merge` drains the other
shell's messages, applies the translation, and extends this shell's
buffer in the original order. -/
def Shell.merge {A B : Type} (s : Shell B) (other : Shell A) (f : A → B) : Shell B :=
  ⟨s.messages ++ other.messages.map f⟩

/-- Modelled from the spec: an overlay element (`overlay::Element`), a
transient floating sub-widget observed here through the messages and
status its own event handling emits. -/
structure Overlay (A : Type) : Type where
  on_event : Event → List A × Status

/-- Modelled from the spec: `overlay::Element::map` translates every
message the overlay emits with the given function, preserving order and
status. -/
def Overlay.map {A B : Type} (o : Overlay A) (f : A → B) : Overlay B :=
  ⟨fun e => (((o.on_event e).1).map f, (o.on_event e).2)⟩

/-- result of one `on_event` call: the updated widget state (`&mut self`),
the updated tree (`&mut Tree`), the shell after emission, and the status. -/
structure EventResult (A σ : Type) : Type where
  widget : σ
  tree : WTree
  shell : Shell A
  status : Status

/-- the `CosmicWidget` trait object: the host `Widget` methods plus the
layer capability set, as a record of methods over the widget state `σ`.
`is_container` and `layer` are trait methods with defaults that concrete
widgets may override, so they are fields here; `child_layer` is never
overridden and stays a derived function (`CosmicWidget.child_layer`). -/
structure CosmicWidget (A σ : Type) : Type where
  width : σ → Length
  height : σ → Length
  tag : σ → Tag
  state : σ → TState
  children : σ → List WTree
  diff : σ → WTree → WTree
  layout : σ → Limits → LayoutNode
  operate : σ → WTree → LayoutNode → List OpCall
  on_event : σ → WTree → Event → LayoutNode → Point → Shell A → EventResult A σ
  draw : σ → WTree → LayoutNode → Point → Rect → List DrawCmd
  mouse_interaction : σ → WTree → LayoutNode → Point → Rect → MouseInteraction
  overlay : σ → WTree → LayoutNode → Option (Overlay A)
  is_container : σ → Bool
  layer : σ → Layer
  set_layer : σ → Layer → σ

/-- the body of the trait's default `is_container`: `false`. -/
def CosmicWidget.default_is_container : Bool := false

/-- the body of the trait's default `layer`: `Layer::default()`. -/
def CosmicWidget.default_layer : Layer := Layer.default

/-- the trait's default `child_layer`, which no implementor overrides: if
the widget is a container, promote its layer one step (saturating at
`Secondary`), else return the widget's own layer. -/
def CosmicWidget.child_layer {A σ : Type} (w : CosmicWidget A σ) (s : σ) : Layer :=
  if w.is_container s then
    match w.layer s with
    | Layer.Background => Layer.Primary
    | Layer.Primary | Layer.Secondary => Layer.Secondary
  else
    w.layer s

/-- `CosmicElement`: owns exactly one boxed `CosmicWidget`. -/
structure CosmicElement (A σ : Type) : Type where
  widget : CosmicWidget A σ

/-- `CosmicMap`: wraps a widget over messages `A` and a mapper `A → B`;
its state is the inner widget's state. Methods not listed in the source
impls (`is_container`, `layer`) keep the trait defaults; `set_layer`
forwards; `on_event` runs the inner handler against a fresh local shell
and merges the translated messages; `operate` is trace-invariant because
`MapOperation` forwards leaf calls and re-wraps container continuations;
`overlay` maps the optional inner overlay through `Overlay.map`. -/
def CosmicMap {A B σ : Type} (w : CosmicWidget A σ) (mapper : A → B) :
    CosmicWidget B σ where
  width := w.width
  height := w.height
  tag := w.tag
  state := w.state
  children := w.children
  diff := w.diff
  layout := w.layout
  operate := w.operate
  on_event := fun s t e lay cur shell =>
    let r := w.on_event s t e lay cur (Shell.mk [])
    ⟨r.widget, r.tree, shell.merge r.shell mapper, r.status⟩
  draw := w.draw
  mouse_interaction := w.mouse_interaction
  overlay := fun s t lay => (w.overlay s t lay).map (fun o => o.map mapper)
  is_container := fun _ => CosmicWidget.default_is_container
  layer := fun _ => CosmicWidget.default_layer
  set_layer := w.set_layer

/-- `CosmicElement::map`: wraps the element's widget in a `CosmicMap`. -/
def CosmicElement.map {A B σ : Type} (el : CosmicElement A σ) (f : A → B) :
    CosmicElement B σ :=
  ⟨CosmicMap el.widget f⟩

mutual

/-- the inner `explain_layout` helper of `CosmicExplain::draw`: one
`fill_quad` with the given border color, border width `1`, border radius
`0` and transparent fill for this node's bounds, then recurse into the
children. -/
def explain_layout (color : Color) : LayoutNode → List DrawCmd
  | LayoutNode.mk bounds cs =>
      DrawCmd.fillQuad bounds color 1 0 Color.TRANSPARENT :: explain_children color cs

/-- the `for child in layout.children()` loop of `explain_layout`. -/
def explain_children (color : Color) : LayoutForest → List DrawCmd
  | LayoutForest.nil => []
  | LayoutForest.cons l ls => explain_layout color l ++ explain_children color ls

end

/-- `CosmicExplain`: owns a `CosmicElement` and a color; every method
forwards to the element's widget except `draw`, which first delegates and
then outlines the whole layout tree; `is_container` and `layer` are not
overridden and keep the trait defaults. -/
def CosmicExplain {A σ : Type} (element : CosmicElement A σ) (color : Color) :
    CosmicWidget A σ where
  width := element.widget.width
  height := element.widget.height
  tag := element.widget.tag
  state := element.widget.state
  children := element.widget.children
  diff := element.widget.diff
  layout := element.widget.layout
  operate := element.widget.operate
  on_event := element.widget.on_event
  draw := fun s t lay cur vp =>
    element.widget.draw s t lay cur vp ++ explain_layout color lay
  mouse_interaction := element.widget.mouse_interaction
  overlay := element.widget.overlay
  is_container := fun _ => CosmicWidget.default_is_container
  layer := fun _ => CosmicWidget.default_layer
  set_layer := element.widget.set_layer

/-- `CosmicElement::explain`: wraps the element in a `CosmicExplain`. -/
def CosmicElement.explain {A σ : Type} (el : CosmicElement A σ) (color : Color) :
    CosmicElement A σ :=
  ⟨CosmicExplain el color⟩

/-- a concrete leaf widget used to instantiate the theorems: its event
handler pushes the messages `3, 4, 3` into whatever shell it is given and
captures the event; all other methods are inert; it keeps the trait
defaults for `is_container` and `layer`. -/
def sampleWidget : CosmicWidget Nat Unit where
  width := fun _ => 0
  height := fun _ => 0
  tag := fun _ => 0
  state := fun _ => 0
  children := fun _ => []
  diff := fun _ t => t
  layout := fun _ _ => LayoutNode.mk 0 LayoutForest.nil
  operate := fun _ _ _ => []
  on_event := fun s t _ _ _ shell =>
    ⟨s, t, Shell.mk (shell.messages ++ [3, 4, 3]), Status.Captured⟩
  draw := fun _ _ _ _ _ => [DrawCmd.prim 5]
  mouse_interaction := fun _ _ _ _ _ => 0
  overlay := fun _ _ _ => none
  is_container := fun _ => CosmicWidget.default_is_container
  layer := fun _ => CosmicWidget.default_layer
  set_layer := fun s _ => s

/-- a concrete widget whose event handler pushes the single message `5`. -/
def singleMsgWidget : CosmicWidget Nat Unit where
  width := fun _ => 0
  height := fun _ => 0
  tag := fun _ => 0
  state := fun _ => 0
  children := fun _ => []
  diff := fun _ t => t
  layout := fun _ _ => LayoutNode.mk 0 LayoutForest.nil
  operate := fun _ _ _ => []
  on_event := fun s t _ _ _ shell =>
    ⟨s, t, Shell.mk (shell.messages ++ [5]), Status.Ignored⟩
  draw := fun _ _ _ _ _ => []
  mouse_interaction := fun _ _ _ _ _ => 0
  overlay := fun _ _ _ => none
  is_container := fun _ => CosmicWidget.default_is_container
  layer := fun _ => CosmicWidget.default_layer
  set_layer := fun s _ => s

/-- a concrete widget overriding `is_container` to `true` and `layer` to
`Primary`. -/
def containerWidget : CosmicWidget Nat Unit where
  width := fun _ => 0
  height := fun _ => 0
  tag := fun _ => 0
  state := fun _ => 0
  children := fun _ => []
  diff := fun _ t => t
  layout := fun _ _ => LayoutNode.mk 0 LayoutForest.nil
  operate := fun _ _ _ => []
  on_event := fun s t _ _ _ shell => ⟨s, t, shell, Status.Ignored⟩
  draw := fun _ _ _ _ _ => []
  mouse_interaction := fun _ _ _ _ _ => 0
  overlay := fun _ _ _ => none
  is_container := fun _ => true
  layer := fun _ => Layer.Primary
  set_layer := fun s _ => s

/-- a concrete overlay emitting messages `7, 8` with status `Ignored`. -/
def sampleOverlay : Overlay Nat :=
  ⟨fun _ => ([7, 8], Status.Ignored)⟩

/-- a concrete widget whose `overlay` yields `sampleOverlay`. -/
def overlayWidget : CosmicWidget Nat Unit where
  width := fun _ => 0
  height := fun _ => 0
  tag := fun _ => 0
  state := fun _ => 0
  children := fun _ => []
  diff := fun _ t => t
  layout := fun _ _ => LayoutNode.mk 0 LayoutForest.nil
  operate := fun _ _ _ => []
  on_event := fun s t _ _ _ shell => ⟨s, t, shell, Status.Ignored⟩
  draw := fun _ _ _ _ _ => []
  mouse_interaction := fun _ _ _ _ _ => 0
  overlay := fun _ _ _ => some sampleOverlay
  is_container := fun _ => CosmicWidget.default_is_container
  layer := fun _ => CosmicWidget.default_layer
  set_layer := fun s _ => s

mutual

/-- the outline pass issues exactly one draw command per layout node. -/
theorem explain_layout_length (c : Color) :
    (lay : LayoutNode) → (explain_layout c lay).length = lay.count
  | LayoutNode.mk bb cs => by
    simp only [explain_layout, LayoutNode.count, List.length_cons,
      explain_children_length c cs]
    omega

/-- the outline pass over a forest issues one draw command per node. -/
theorem explain_children_length (c : Color) :
    (ls : LayoutForest) → (explain_children c ls).length = ls.count
  | LayoutForest.nil => rfl
  | LayoutForest.cons l ls => by
    simp only [explain_children, LayoutForest.count, List.length_append,
      explain_layout_length c l, explain_children_length c ls]

end

mutual

/-- every command the outline pass issues is a quad with the given border
color, border width one, border radius zero and transparent fill. -/
theorem explain_layout_shape (c : Color) :
    (lay : LayoutNode) → ∀ cmd ∈ explain_layout c lay,
      ∃ r, cmd = DrawCmd.fillQuad r c 1 0 Color.TRANSPARENT
  | LayoutNode.mk bb cs => by
    intro cmd hcmd
    simp only [explain_layout, List.mem_cons] at hcmd
    rcases hcmd with h | h
    · exact ⟨bb, h⟩
    · exact explain_children_shape c cs cmd h

/-- forest version of `explain_layout_shape`. -/
theorem explain_children_shape (c : Color) :
    (ls : LayoutForest) → ∀ cmd ∈ explain_children c ls,
      ∃ r, cmd = DrawCmd.fillQuad r c 1 0 Color.TRANSPARENT
  | LayoutForest.nil => by
    intro cmd h
    simp [explain_children] at h
  | LayoutForest.cons l ls => by
    intro cmd hcmd
    simp only [explain_children, List.mem_append] at hcmd
    rcases hcmd with h | h
    · exact explain_layout_shape c l cmd h
    · exact explain_children_shape c ls cmd h

end

/-- Claim C1: when `CosmicMap::on_event` runs, the inner handler is invoked
against a fresh empty local shell; if it there emits `ms` (in order) with
some status, the caller's shell is extended by exactly `ms.map f` in the
same order, and the inner status is returned unchanged. -/
theorem cosmicMap_on_event_translates {A B σ : Type} (w : CosmicWidget A σ) (f : A → B)
    (s : σ) (t : WTree) (e : Event) (lay : LayoutNode) (cur : Point) (shell : Shell B)
    (ms : List A) (st : Status) (s2 : σ) (t2 : WTree)
    (h : w.on_event s t e lay cur (Shell.mk []) = ⟨s2, t2, Shell.mk ms, st⟩) :
    (CosmicMap w f).on_event s t e lay cur shell
      = ⟨s2, t2, Shell.mk (shell.messages ++ ms.map f), st⟩ := by
  simp only [CosmicMap, h, Shell.merge]

/-- Claim C1 witness: concrete run with a non-injective mapper and a
three-message emission, checking order and duplicates are preserved. -/
theorem cosmicMap_on_event_translates_witness :
    sampleWidget.on_event () 0 0 (LayoutNode.mk 0 LayoutForest.nil) 0 (Shell.mk [])
      = ⟨(), 0, Shell.mk [3, 4, 3], Status.Captured⟩ ∧
    (CosmicMap sampleWidget (fun n => n % 2)).on_event () 0 0
        (LayoutNode.mk 0 LayoutForest.nil) 0 (Shell.mk [9])
      = ⟨(), 0, Shell.mk [9, 1, 0, 1], Status.Captured⟩ :=
  ⟨rfl, cosmicMap_on_event_translates sampleWidget (fun n => n % 2) () 0 0
    (LayoutNode.mk 0 LayoutForest.nil) 0 (Shell.mk [9]) [3, 4, 3] Status.Captured () 0 rfl⟩

/-- Claim C2: composing `node.map(f).map(g)` turns a base-widget message `m`
into the caller-visible message `g (f m)`. -/
theorem cosmicElement_map_map_composes {A B C σ : Type} (el : CosmicElement A σ)
    (f : A → B) (g : B → C) (s : σ) (t : WTree) (e : Event) (lay : LayoutNode)
    (cur : Point) (shell : Shell C) (m : A) (st : Status) (s2 : σ) (t2 : WTree)
    (h : el.widget.on_event s t e lay cur (Shell.mk []) = ⟨s2, t2, Shell.mk [m], st⟩) :
    ((el.map f).map g).widget.on_event s t e lay cur shell
      = ⟨s2, t2, Shell.mk (shell.messages ++ [g (f m)]), st⟩ := by
  simp only [CosmicElement.map, CosmicMap, h, Shell.merge, List.map, List.nil_append]

/-- Claim C2 witness: concrete double-mapped run where the base widget emits
`5`, with `f = (+1)` and `g = (*2)`, so the caller sees `12`. -/
theorem cosmicElement_map_map_composes_witness :
    (CosmicElement.mk singleMsgWidget).widget.on_event () 0 0
        (LayoutNode.mk 0 LayoutForest.nil) 0 (Shell.mk [])
      = ⟨(), 0, Shell.mk [5], Status.Ignored⟩ ∧
    (((CosmicElement.mk singleMsgWidget).map (fun n => n + 1)).map
        (fun n => n * 2)).widget.on_event () 0 0 (LayoutNode.mk 0 LayoutForest.nil) 0
        (Shell.mk [])
      = ⟨(), 0, Shell.mk [12], Status.Ignored⟩ :=
  ⟨rfl, cosmicElement_map_map_composes (CosmicElement.mk singleMsgWidget)
    (fun n => n + 1) (fun n => n * 2) () 0 0 (LayoutNode.mk 0 LayoutForest.nil) 0
    (Shell.mk []) 5 Status.Ignored () 0 rfl⟩

/-- Claim C3: for a widget whose `is_container` is `true`, `child_layer`
promotes `Background` to `Primary`, `Primary` to `Secondary`, and
`Secondary` to `Secondary` (saturating, no error). -/
theorem child_layer_container_promotes {A σ : Type} (w : CosmicWidget A σ) (s : σ)
    (h : w.is_container s = true) :
    (w.layer s = Layer.Background → w.child_layer s = Layer.Primary) ∧
    (w.layer s = Layer.Primary → w.child_layer s = Layer.Secondary) ∧
    (w.layer s = Layer.Secondary → w.child_layer s = Layer.Secondary) := by
  refine ⟨fun hl => ?_, fun hl => ?_, fun hl => ?_⟩ <;>
    simp [CosmicWidget.child_layer, h, hl]

/-- Claim C3 witness: a concrete container widget on layer `Primary` gets
child layer `Secondary`. -/
theorem child_layer_container_promotes_witness :
    containerWidget.is_container () = true ∧
    containerWidget.layer () = Layer.Primary ∧
    containerWidget.child_layer () = Layer.Secondary :=
  ⟨rfl, rfl, (child_layer_container_promotes containerWidget () rfl).2.1 rfl⟩

/-- Claim C4: for a widget whose `is_container` is `false`, `child_layer`
returns the widget's own layer unchanged. -/
theorem child_layer_leaf_identity {A σ : Type} (w : CosmicWidget A σ) (s : σ)
    (h : w.is_container s = false) :
    w.child_layer s = w.layer s := by
  simp [CosmicWidget.child_layer, h]

/-- Claim C4 witness: a concrete non-container widget keeps its own layer as
child layer. -/
theorem child_layer_leaf_identity_witness :
    sampleWidget.is_container () = false ∧
    sampleWidget.child_layer () = sampleWidget.layer () :=
  ⟨rfl, child_layer_leaf_identity sampleWidget () rfl⟩

/-- Claim C5 counterexample: `CosmicMap` and `CosmicExplain` forward
`set_layer` to the inner widget but do not override `layer`, so after
`set_layer(Secondary)` their `layer()` still returns `Background`, not
`Secondary` — the round-trip fails on both concrete widgets of the file. -/
theorem set_layer_roundtrip_cex :
    (CosmicMap sampleWidget (fun n => n % 2)).layer
        ((CosmicMap sampleWidget (fun n => n % 2)).set_layer () Layer.Secondary)
      ≠ Layer.Secondary ∧
    (CosmicExplain (CosmicElement.mk sampleWidget) Color.TRANSPARENT).layer
        ((CosmicExplain (CosmicElement.mk sampleWidget) Color.TRANSPARENT).set_layer
          () Layer.Secondary)
      ≠ Layer.Secondary := by
  decide

/-- Claim C5 amended: for the concrete widgets of this file (`CosmicMap`
and `CosmicExplain`), `set_layer` forwards the just-set value to the
wrapped widget, and a subsequent `layer()` on the wrapper returns the
trait default `Background` regardless of the value set, so the round-trip
observes the set value only through the inner widget. -/
theorem set_layer_roundtrip_amended {A B σ : Type} (w : CosmicWidget A σ) (f : A → B)
    (el : CosmicElement A σ) (c : Color) (l : Layer) (s : σ) :
    (CosmicMap w f).set_layer s l = w.set_layer s l ∧
    (CosmicMap w f).layer ((CosmicMap w f).set_layer s l) = Layer.Background ∧
    (CosmicExplain el c).set_layer s l = el.widget.set_layer s l ∧
    (CosmicExplain el c).layer ((CosmicExplain el c).set_layer s l) = Layer.Background :=
  ⟨rfl, rfl, rfl, rfl⟩

/-- Claim C6 counterexample: `CosmicExplain` does not forward
`is_container`, `layer` or `child_layer` — it keeps the trait defaults —
so on a wrapped container widget with layer `Primary` all three disagree
with the inner node. -/
theorem cosmicExplain_forwarding_cex :
    (CosmicExplain (CosmicElement.mk containerWidget) Color.TRANSPARENT).is_container ()
      ≠ containerWidget.is_container () ∧
    (CosmicExplain (CosmicElement.mk containerWidget) Color.TRANSPARENT).layer ()
      ≠ containerWidget.layer () ∧
    (CosmicExplain (CosmicElement.mk containerWidget) Color.TRANSPARENT).child_layer ()
      ≠ containerWidget.child_layer () := by
  decide

/-- Claim C6 amended: every host-toolkit operation except `draw` (width,
height, tag, state, children, diff, layout, operate, on_event,
mouse_interaction, overlay) and also `set_layer` forward to the wrapped
inner node with identical results and state effects; `is_container` and
`layer` (and hence `child_layer`) are not forwarded but keep the trait
defaults `false` and `Background`. -/
theorem cosmicExplain_forwards_amended {A σ : Type} (el : CosmicElement A σ) (c : Color)
    (s : σ) (t : WTree) (e : Event) (lay : LayoutNode) (cur : Point) (vp : Rect)
    (lim : Limits) (sh : Shell A) (l : Layer) :
    (CosmicExplain el c).width s = el.widget.width s ∧
    (CosmicExplain el c).height s = el.widget.height s ∧
    (CosmicExplain el c).tag s = el.widget.tag s ∧
    (CosmicExplain el c).state s = el.widget.state s ∧
    (CosmicExplain el c).children s = el.widget.children s ∧
    (CosmicExplain el c).diff s t = el.widget.diff s t ∧
    (CosmicExplain el c).layout s lim = el.widget.layout s lim ∧
    (CosmicExplain el c).operate s t lay = el.widget.operate s t lay ∧
    (CosmicExplain el c).on_event s t e lay cur sh = el.widget.on_event s t e lay cur sh ∧
    (CosmicExplain el c).mouse_interaction s t lay cur vp
      = el.widget.mouse_interaction s t lay cur vp ∧
    (CosmicExplain el c).overlay s t lay = el.widget.overlay s t lay ∧
    (CosmicExplain el c).set_layer s l = el.widget.set_layer s l ∧
    (CosmicExplain el c).is_container s = CosmicWidget.default_is_container ∧
    (CosmicExplain el c).layer s = CosmicWidget.default_layer :=
  ⟨rfl, rfl, rfl, rfl, rfl, rfl, rfl, rfl, rfl, rfl, rfl, rfl, rfl, rfl⟩

/-- Claim C7: `CosmicExplain::draw` first produces exactly the inner node's
draw output, then appends the outline pass, which issues exactly one
command per node of the layout geometry tree (depth-first), each a quad
with the given border color, border width one and transparent
(zero-opacity) fill. -/
theorem cosmicExplain_draw_outlines {A σ : Type} (el : CosmicElement A σ) (c : Color)
    (s : σ) (t : WTree) (lay : LayoutNode) (cur : Point) (vp : Rect) :
    (CosmicExplain el c).draw s t lay cur vp
      = el.widget.draw s t lay cur vp ++ explain_layout c lay ∧
    (explain_layout c lay).length = lay.count ∧
    (∀ cmd ∈ explain_layout c lay, ∃ r, cmd = DrawCmd.fillQuad r c 1 0 Color.TRANSPARENT) ∧
    Color.TRANSPARENT.a = 0 :=
  ⟨rfl, explain_layout_length c lay, explain_layout_shape c lay, rfl⟩

/-- Claim C8: `CosmicMap::overlay` yields no overlay exactly when the inner
widget yields none, and when the inner widget yields one, the wrapper
yields that overlay with its emitted messages translated by the stored
mapper (status preserved). -/
theorem cosmicMap_overlay_translates {A B σ : Type} (w : CosmicWidget A σ) (f : A → B)
    (s : σ) (t : WTree) (lay : LayoutNode) :
    ((CosmicMap w f).overlay s t lay = none ↔ w.overlay s t lay = none) ∧
    ∀ o, w.overlay s t lay = some o →
      (CosmicMap w f).overlay s t lay = some (Overlay.map o f) ∧
      ∀ e : Event, ((Overlay.map o f).on_event e).1 = ((o.on_event e).1).map f ∧
        ((Overlay.map o f).on_event e).2 = (o.on_event e).2 := by
  constructor
  · show (w.overlay s t lay).map (fun o => o.map f) = none ↔ w.overlay s t lay = none
    cases w.overlay s t lay <;> simp
  · intro o ho
    refine ⟨?_, fun e => ⟨rfl, rfl⟩⟩
    show (w.overlay s t lay).map (fun o => o.map f) = some (Overlay.map o f)
    rw [ho]
    rfl

/-- Claim C8 witness: concrete widget yielding an overlay that emits
`[7, 8]`; the mapped overlay emits `[8, 9]` under the mapper `(+1)`. -/
theorem cosmicMap_overlay_translates_witness :
    overlayWidget.overlay () 0 (LayoutNode.mk 0 LayoutForest.nil) = some sampleOverlay ∧
    (CosmicMap overlayWidget (fun n => n + 1)).overlay () 0
        (LayoutNode.mk 0 LayoutForest.nil)
      = some (Overlay.map sampleOverlay (fun n => n + 1)) ∧
    ((Overlay.map sampleOverlay (fun n => n + 1)).on_event 0).1 = [8, 9] :=
  ⟨rfl,
   ((cosmicMap_overlay_translates overlayWidget (fun n => n + 1) () 0
      (LayoutNode.mk 0 LayoutForest.nil)).2 sampleOverlay rfl).1,
   (((cosmicMap_overlay_translates overlayWidget (fun n => n + 1) () 0
      (LayoutNode.mk 0 LayoutForest.nil)).2 sampleOverlay rfl).2 0).1⟩

/-- Claim C9: `Layer` is a totally ordered three-valued enumeration with
`Background < Primary < Secondary` (reflexive, antisymmetric, transitive,
total order from the derived discriminant order) and its default value —
the one the trait's default `layer()` returns — is `Background`. -/
theorem layer_total_order_default :
    (∀ a : Layer, a ≤ a) ∧
    (∀ a b : Layer, a ≤ b → b ≤ a → a = b) ∧
    (∀ a b c : Layer, a ≤ b → b ≤ c → a ≤ c) ∧
    (∀ a b : Layer, a ≤ b ∨ b ≤ a) ∧
    (∀ a b : Layer, a < b ↔ a ≤ b ∧ ¬ b ≤ a) ∧
    Layer.Background < Layer.Primary ∧
    Layer.Primary < Layer.Secondary ∧
    Layer.default = Layer.Background ∧
    CosmicWidget.default_layer = Layer.Background := by
  decide

/-- Claim C10: `CosmicMap` overrides only `set_layer`, so for any inner
widget and any state — including a state produced by a prior `set_layer`
call — the wrapper's `layer()` is `Background` and `is_container()` is
`false`. -/
theorem cosmicMap_defaults {A B σ : Type} (w : CosmicWidget A σ) (f : A → B)
    (s : σ) (l : Layer) :
    (CosmicMap w f).layer s = Layer.Background ∧
    (CosmicMap w f).layer ((CosmicMap w f).set_layer s l) = Layer.Background ∧
    (CosmicMap w f).is_container s = false ∧
    (CosmicMap w f).is_container ((CosmicMap w f).set_layer s l) = false :=
  ⟨rfl, rfl, rfl, rfl⟩
